import Mathlib

/-!
# Verification of the ecewo-fs asynchronous filesystem module

Shallow embedding of `src/ecewo-fs.c` (the single implementation file) and
`src/ecewo-fs.h`.  The module wraps libuv's asynchronous filesystem calls:
every public entry point validates its arguments, passes an admission gate,
allocates a per-call request record, and issues a chain of reactor steps whose
completions eventually invoke the caller's callback exactly once.

The embedding below models:
* the process-wide registry `fs_module_state_t` as `FsState`;
* the registry transitions (`fs_begin_operation`, `fs_end_operation`,
  `fs_record_*`, `fs_reset_stats`, `fs_get_stats`, `fs_can_accept_operation`);
* each operation chain as a function from the call's arguments, the registry
  state and an environment (the reactor's result codes and the success of the
  C allocations) to the entry point's return value paired with the trace of
  observable events (reactor calls issued, allocations, callback invocations,
  statistics updates);
* the bounded shutdown drain loop of `fs_cleanup`.

Machine integers: the C `int` counters are modelled as `Int` (the admission
invariant keeps them far from any 32-bit bound), the `uint64_t` statistics
counters as `Nat` with explicit reduction mod 2^64 where the code increments
them.
-/

set_option autoImplicit false

namespace EcewoFs

/-- `ECEWO_FS_MAX_CONCURRENT_OPS` (default, ecewo-fs.h line 17). -/
def ECEWO_FS_MAX_CONCURRENT_OPS : Int := 100

/-- `ECEWO_FS_MAX_FILE_SIZE` (default 100 MiB, ecewo-fs.h line 21). -/
def ECEWO_FS_MAX_FILE_SIZE : Nat := 100 * 1024 * 1024

/-- Modulus of the `uint64_t` statistics counters. -/
def UINT64_MOD : Nat := 2 ^ 64

/-- The process-wide `fs_module_state_t` of ecewo-fs.c (lines 6-24). -/
structure FsState where
  active_operations : Int
  peak_operations : Int
  queued_operations : Int
  total_reads : Nat
  total_writes : Nat
  total_bytes_read : Nat
  total_bytes_written : Nat
  failed_operations : Int
  initialized : Bool
deriving DecidableEq, Repr

/-- The zeroed static `fs_state` right after a successful `fs_init`:
all counters zero, `initialized = true`. -/
def initState : FsState :=
  { active_operations := 0
    peak_operations := 0
    queued_operations := 0
    total_reads := 0
    total_writes := 0
    total_bytes_read := 0
    total_bytes_written := 0
    failed_operations := 0
    initialized := true }

/-- `fs_can_accept_operation` (ecewo-fs.c lines 120-128): `-1` when the module
is not initialized, otherwise the C truth value of
`active_operations < ECEWO_FS_MAX_CONCURRENT_OPS` (`1` or `0`). -/
def fs_can_accept_operation (s : FsState) : Int :=
  if s.initialized = false then -1
  else if s.active_operations < ECEWO_FS_MAX_CONCURRENT_OPS then 1 else 0

/-- `fs_begin_operation` (lines 130-136): increment `active_operations`, and
raise `peak_operations` to it when exceeded. -/
def fs_begin_operation (s : FsState) : FsState :=
  let s1 := { s with active_operations := s.active_operations + 1 }
  if s1.peak_operations < s1.active_operations then
    { s1 with peak_operations := s1.active_operations }
  else s1

/-- `fs_end_operation` (lines 138-143): decrement `active_operations`, floored
at 0. -/
def fs_end_operation (s : FsState) : FsState :=
  if 0 < s.active_operations then
    { s with active_operations := s.active_operations - 1 }
  else s

/-- `fs_record_read` (lines 145-150). -/
def fs_record_read (s : FsState) (bytes : Nat) : FsState :=
  { s with total_reads := (s.total_reads + 1) % UINT64_MOD
           total_bytes_read := (s.total_bytes_read + bytes) % UINT64_MOD }

/-- `fs_record_write` (lines 152-157). -/
def fs_record_write (s : FsState) (bytes : Nat) : FsState :=
  { s with total_writes := (s.total_writes + 1) % UINT64_MOD
           total_bytes_written := (s.total_bytes_written + bytes) % UINT64_MOD }

/-- `fs_record_error` (lines 159-163). -/
def fs_record_error (s : FsState) : FsState :=
  { s with failed_operations := s.failed_operations + 1 }

/-- `fs_reset_stats` (lines 106-118): no-op when not initialized, otherwise
zeroes `total_reads`, `total_writes`, `total_bytes_read`,
`total_bytes_written`, `failed_operations` and `peak_operations`. -/
def fs_reset_stats (s : FsState) : FsState :=
  if s.initialized = false then s
  else
    { s with total_reads := 0
             total_writes := 0
             total_bytes_read := 0
             total_bytes_written := 0
             failed_operations := 0
             peak_operations := 0 }

/-- The caller-visible `fs_stats_t` struct (ecewo-fs.h lines 107-116). -/
structure fs_stats_t where
  active_operations : Int
  peak_operations : Int
  queued_operations : Int
  total_reads : Nat
  total_writes : Nat
  total_bytes_read : Nat
  total_bytes_written : Nat
  failed_operations : Int
deriving DecidableEq, Repr

/-- `fs_get_stats` (ecewo-fs.c lines 90-104).  The out-pointer is modelled as
`Option fs_stats_t`: `none` is a null pointer, `some prev` is a pointer to a
struct currently holding `prev`.  The result is what the pointed-to memory
holds after the call: the code returns without writing when the pointer is
null or the module is not initialized. -/
def fs_get_stats (s : FsState) (stats : Option fs_stats_t) : Option fs_stats_t :=
  match stats with
  | none => none
  | some prev =>
    if s.initialized = false then some prev
    else
      some { active_operations := s.active_operations
             peak_operations := s.peak_operations
             queued_operations := s.queued_operations
             total_reads := s.total_reads
             total_writes := s.total_writes
             total_bytes_read := s.total_bytes_read
             total_bytes_written := s.total_bytes_written
             failed_operations := s.failed_operations }

/-! ## The shutdown drain loop (`fs_cleanup`, lines 66-88) -/

/-- Milliseconds slept between polls of the drain loop (`uv_sleep(10)`). -/
def cleanup_sleep_ms : Nat := 10

/-- Poll bound of the drain loop (`wait_count < 100`). -/
def cleanup_max_polls : Nat := 100

/-- The drain loop of `fs_cleanup` (lines 72-78), one observation of
`active_operations` per lock acquisition: `obs k` is the value read at the
k-th acquisition (the mutex is released and re-acquired around each sleep, so
other threads may change the count between observations).  `fuel` is the
remaining poll budget (`cleanup_max_polls - k`); the function returns the
final `wait_count`, i.e. the number of sleeps performed. -/
def cleanupLoop (obs : Nat → Int) : Nat → Nat → Nat
  | 0, k => k
  | fuel + 1, k => if 0 < obs k then cleanupLoop obs fuel (k + 1) else k

/-- Outcome of `fs_cleanup`. -/
structure CleanupResult where
  polls : Nat
  warning : Bool
  lock_destroyed : Bool
deriving DecidableEq, Repr

/-- `fs_cleanup` (lines 66-88): no-op when not initialized; otherwise drain
with the bounded poll loop, warn if operations are still active at the last
observation, then clear `initialized` and destroy the mutex regardless. -/
def fs_cleanup (initialized : Bool) (obs : Nat → Int) : CleanupResult :=
  if initialized = false then
    { polls := 0, warning := false, lock_destroyed := false }
  else
    let k := cleanupLoop obs cleanup_max_polls 0
    { polls := k
      warning := decide (0 < obs k)
      lock_destroyed := true }

/-! ## Operation chains

Each public operation is modelled as a function from the call arguments, the
registry state at call time, and an environment (reactor result codes and C
allocation successes) to the entry point's immediate `int` return value paired
with the trace of observable events of the whole operation, chain completions
included.  Null C pointers among the arguments are modelled by explicit
booleans (`path_is_null`, ...), since the payload types (`String`, `List Nat`)
have no null value. -/

/-- The open flag sets actually passed to `uv_fs_open` by this module. -/
inductive OpenFlags where
  | rdonly
  | wronly_creat_trunc
  | wronly_creat_append
deriving DecidableEq, Repr

/-- Observable events of one operation: reactor calls issued, buffer
allocations, statistics transitions, and the user-callback invocations with
their arguments.  Callback data/error pointers are `Option`s: `none` is a null
pointer. -/
inductive Ev where
  | begin_op
  | end_op
  | issue_stat (path : String)
  | issue_open (path : String) (flags : OpenFlags)
  | alloc_buf (bytes : Nat)
  | issue_read (bytes : Nat)
  | issue_write (data : List Nat)
  | issue_close
  | issue_op (path : String)
  | issue_op_mode (path : String) (mode : Nat)
  | issue_rename (old_path new_path : String)
  | read_cb (error : Option String) (data : Option (List Nat)) (size : Nat)
  | write_cb (error : Option String)
  | stat_cb (error : Option String) (has_stat : Bool)
  | record_read (bytes : Nat)
  | record_write (bytes : Nat)
  | record_error
  | cleanup_record
deriving DecidableEq, Repr

/-- Modelled from the spec: the Error Translator's two-part rendering of a
libuv error code (`uv_err_name(e)` and `uv_strerror(e)` are libuv externals,
not part of this repository; only the string's existence matters to the
claims). -/
def uv_error_string (errcode : Int) : String :=
  "UV_ERR " ++ toString errcode

/-- `make_error_msg` (ecewo-fs.c lines 165-172): `none` models the `NULL`
returned when `malloc(256)` fails, otherwise the translated message. -/
def make_error_msg (alloc_ok : Bool) (errcode : Int) : Option String :=
  if alloc_ok = false then none
  else some (uv_error_string errcode)

/-! ### Read chain: stat → open → read → close (lines 194-365) -/

/-- Reactor results and allocation outcomes governing one `fs_read_file`
call.  `read_bytes` are the bytes the reactor places in the destination
buffer when the read succeeds (`read_result` is its signed byte count). -/
structure ReadEnv where
  calloc_ok : Bool
  strdup_ok : Bool
  issue_result : Int
  stat_result : Int
  stat_size : Nat
  open_result : Int
  alloc_ok : Bool
  read_result : Int
  read_bytes : List Nat
  err_alloc_ok : Bool
deriving Repr

/-- The per-call record fields the read chain threads along
(`fs_request_t`, lines 26-51, restricted to what the read chain touches). -/
structure ReadReq where
  path : String
  data : List Nat
  size : Nat
  file_size : Nat
deriving DecidableEq, Repr

/-- `read_close_cb` (lines 194-208): terminal success — invoke the callback
with a null error, the buffer and its size, record the read, release the
admission slot, free the record (not the data). -/
def read_close_cb (req : ReadReq) : List Ev :=
  [Ev.read_cb none (some req.data) req.size,
   Ev.record_read req.size, Ev.end_op, Ev.cleanup_record]

/-- `read_data_cb` (lines 210-234): on a negative read result, best-effort
close and terminal error (fallback string when the message buffer cannot be
allocated); on success store the byte count, null-terminate the buffer at
that offset, and issue the close whose completion is `read_close_cb`. -/
def read_data_cb (env : ReadEnv) (req : ReadReq) : List Ev :=
  if env.read_result < 0 then
    let msg := make_error_msg env.err_alloc_ok env.read_result
    [Ev.issue_close,
     Ev.read_cb (some (msg.getD "Read failed")) none 0,
     Ev.record_error, Ev.end_op, Ev.cleanup_record]
  else
    let req1 := { req with size := env.read_result.toNat
                           data := env.read_bytes ++ [0] }
    Ev.issue_close :: read_close_cb req1

/-- `read_open_cb` (lines 236-278): on a negative open result, terminal
error; otherwise allocate the destination buffer of `file_size + 1` bytes
(arena or heap), failing which close best-effort and report a terminal
allocation error; otherwise issue the `uv_fs_read` of `file_size` bytes at
offset 0. -/
def read_open_cb (env : ReadEnv) (req : ReadReq) : List Ev :=
  if env.open_result < 0 then
    let msg := make_error_msg env.err_alloc_ok env.open_result
    [Ev.read_cb (some (msg.getD "Open failed")) none 0,
     Ev.record_error, Ev.end_op, Ev.cleanup_record]
  else if env.alloc_ok = false then
    [Ev.alloc_buf (req.file_size + 1), Ev.issue_close,
     Ev.read_cb (some "Memory allocation failed") none 0,
     Ev.record_error, Ev.end_op, Ev.cleanup_record]
  else
    Ev.alloc_buf (req.file_size + 1) :: Ev.issue_read req.file_size ::
      read_data_cb env req

/-- `read_stat_cb` (lines 280-316): on a negative stat result, terminal
error; on a reported size above `ECEWO_FS_MAX_FILE_SIZE`, terminal
"File too large" error with no open issued; otherwise issue the read-only
open whose completion is `read_open_cb`. -/
def read_stat_cb (env : ReadEnv) (req : ReadReq) : List Ev :=
  if env.stat_result < 0 then
    let msg := make_error_msg env.err_alloc_ok env.stat_result
    [Ev.read_cb (some (msg.getD "Stat failed")) none 0,
     Ev.record_error, Ev.end_op, Ev.cleanup_record]
  else
    let req1 := { req with file_size := env.stat_size }
    if ECEWO_FS_MAX_FILE_SIZE < req1.file_size then
      [Ev.read_cb (some "File too large") none 0,
       Ev.record_error, Ev.end_op, Ev.cleanup_record]
    else
      Ev.issue_open req1.path OpenFlags.rdonly :: read_open_cb env req1

/-- `fs_read_file` (lines 318-365): argument validation, initialization
check, admission gate, record allocation (`calloc` + `strdup`), admission,
then the initial `uv_fs_stat`; a negative issue result reports the error
synchronously through the callback and returns -1. -/
def fs_read_file (path_is_null cb_is_null : Bool) (path : String)
    (s : FsState) (env : ReadEnv) : Int × List Ev :=
  if path_is_null = true ∨ cb_is_null = true then (-1, [])
  else if s.initialized = false then (-1, [])
  else if fs_can_accept_operation s = 0 then (-1, [])
  else if env.calloc_ok = false then (-1, [])
  else if env.strdup_ok = false then (-1, [])
  else
    let req : ReadReq := { path := path, data := [], size := 0, file_size := 0 }
    let pre := [Ev.begin_op, Ev.issue_stat path]
    if env.issue_result < 0 then
      let msg := make_error_msg env.err_alloc_ok env.issue_result
      (-1, pre ++
        [Ev.read_cb (some (msg.getD "Stat failed")) none 0,
         Ev.record_error, Ev.end_op, Ev.cleanup_record])
    else
      (0, pre ++ read_stat_cb env req)

/-! ### Write/append chain: open → write → close (lines 367-495) -/

/-- Reactor results and allocation outcomes governing one
`fs_write_file`/`fs_append_file` call. -/
structure WriteEnv where
  calloc_ok : Bool
  strdup_ok : Bool
  data_alloc_ok : Bool
  issue_result : Int
  open_result : Int
  write_result : Int
  err_alloc_ok : Bool
deriving Repr

/-- The record fields the write chain threads along. -/
structure WriteReq where
  path : String
  data : List Nat
  size : Nat
deriving DecidableEq, Repr

/-- `write_close_cb` (lines 367-379): terminal success — null error to the
callback, record the written byte count, release the slot, free the record
(data included). -/
def write_close_cb (req : WriteReq) : List Ev :=
  [Ev.write_cb none, Ev.record_write req.size, Ev.end_op, Ev.cleanup_record]

/-- `write_data_cb` (lines 381-403): on a negative write result, best-effort
close and terminal error; on success store the byte count and issue the close
whose completion is `write_close_cb`. -/
def write_data_cb (env : WriteEnv) (req : WriteReq) : List Ev :=
  if env.write_result < 0 then
    let msg := make_error_msg env.err_alloc_ok env.write_result
    [Ev.issue_close,
     Ev.write_cb (some (msg.getD "Write failed")),
     Ev.record_error, Ev.end_op, Ev.cleanup_record]
  else
    let req1 := { req with size := env.write_result.toNat }
    Ev.issue_close :: write_close_cb req1

/-- `write_open_cb` (lines 405-428): on a negative open result, terminal
error; otherwise issue the single `uv_fs_write` of the owned copy of the
payload at offset 0. -/
def write_open_cb (env : WriteEnv) (req : WriteReq) : List Ev :=
  if env.open_result < 0 then
    let msg := make_error_msg env.err_alloc_ok env.open_result
    [Ev.write_cb (some (msg.getD "Open failed")),
     Ev.record_error, Ev.end_op, Ev.cleanup_record]
  else
    Ev.issue_write req.data :: write_data_cb env req

/-- `fs_write_internal` (lines 430-485): argument validation, initialization
check, admission gate, size ceiling, record allocation (`calloc`, `strdup`,
`malloc(size)`), `memcpy` of the payload into the owned buffer, admission,
then the initial `uv_fs_open` with the given flags; a negative issue result
reports the error synchronously through the callback and returns -1. -/
def fs_write_internal (path_is_null data_is_null cb_is_null : Bool)
    (path : String) (data : List Nat) (size : Nat) (flags : OpenFlags)
    (s : FsState) (env : WriteEnv) : Int × List Ev :=
  if path_is_null = true ∨ data_is_null = true ∨ cb_is_null = true then (-1, [])
  else if s.initialized = false then (-1, [])
  else if fs_can_accept_operation s = 0 then (-1, [])
  else if ECEWO_FS_MAX_FILE_SIZE < size then (-1, [])
  else if env.calloc_ok = false then (-1, [])
  else if env.strdup_ok = false ∨ env.data_alloc_ok = false then (-1, [])
  else
    let req : WriteReq := { path := path, data := data.take size, size := size }
    let pre := [Ev.begin_op, Ev.issue_open path flags]
    if env.issue_result < 0 then
      let msg := make_error_msg env.err_alloc_ok env.issue_result
      (-1, pre ++
        [Ev.write_cb (some (msg.getD "Open failed")),
         Ev.record_error, Ev.end_op, Ev.cleanup_record])
    else
      (0, pre ++ write_open_cb env req)

/-- `fs_write_file` (lines 487-490): write with create + truncate flags. -/
def fs_write_file (path_is_null data_is_null cb_is_null : Bool)
    (path : String) (data : List Nat) (size : Nat)
    (s : FsState) (env : WriteEnv) : Int × List Ev :=
  fs_write_internal path_is_null data_is_null cb_is_null path data size
    OpenFlags.wronly_creat_trunc s env

/-- `fs_append_file` (lines 492-495): write with create + append flags. -/
def fs_append_file (path_is_null data_is_null cb_is_null : Bool)
    (path : String) (data : List Nat) (size : Nat)
    (s : FsState) (env : WriteEnv) : Int × List Ev :=
  fs_write_internal path_is_null data_is_null cb_is_null path data size
    OpenFlags.wronly_creat_append s env

/-! ### Stat, unlink/mkdir/rmdir, rename (lines 497-730) -/

/-- Reactor results and allocation outcomes for the single-step operations
(`opResult` is the completion's signed result). -/
structure SimpleEnv where
  calloc_ok : Bool
  strdup_ok : Bool
  issue_result : Int
  op_result : Int
  err_alloc_ok : Bool
deriving Repr

/-- `stat_cb` (lines 497-524): failure invokes the callback with a translated
(or fallback) error and no metadata; success passes the metadata snapshot and
a null error, with no statistics recorded besides releasing the slot. -/
def stat_cb (env : SimpleEnv) : List Ev :=
  if env.op_result < 0 then
    let msg := make_error_msg env.err_alloc_ok env.op_result
    [Ev.stat_cb (some (msg.getD "Stat failed")) false,
     Ev.record_error, Ev.end_op, Ev.cleanup_record]
  else
    [Ev.stat_cb none true, Ev.end_op, Ev.cleanup_record]

/-- `fs_stat` (lines 526-565). -/
def fs_stat (path_is_null cb_is_null : Bool) (path : String)
    (s : FsState) (env : SimpleEnv) : Int × List Ev :=
  if path_is_null = true ∨ cb_is_null = true then (-1, [])
  else if s.initialized = false then (-1, [])
  else if fs_can_accept_operation s = 0 then (-1, [])
  else if env.calloc_ok = false then (-1, [])
  else if env.strdup_ok = false then (-1, [])
  else
    let pre := [Ev.begin_op, Ev.issue_stat path]
    if env.issue_result < 0 then
      let msg := make_error_msg env.err_alloc_ok env.issue_result
      (-1, pre ++
        [Ev.stat_cb (some (msg.getD "Stat failed")) false,
         Ev.record_error, Ev.end_op, Ev.cleanup_record])
    else
      (0, pre ++ stat_cb env)

/-- `simple_op_cb` (lines 567-585): on a negative result it stores
`make_error_msg`'s result and passes it to the callback unchanged — when that
allocation fails the callback receives a null error even though the operation
failed (no fallback string here, unlike the other chains). -/
def simple_op_cb (env : SimpleEnv) : List Ev :=
  if env.op_result < 0 then
    let error := make_error_msg env.err_alloc_ok env.op_result
    [Ev.record_error, Ev.write_cb error, Ev.end_op, Ev.cleanup_record]
  else
    [Ev.write_cb none, Ev.end_op, Ev.cleanup_record]

/-- `fs_simple_op` (lines 590-624): shared entry point of `fs_unlink` and
`fs_rmdir`. -/
def fs_simple_op (path_is_null cb_is_null : Bool) (path : String)
    (s : FsState) (env : SimpleEnv) : Int × List Ev :=
  if path_is_null = true ∨ cb_is_null = true then (-1, [])
  else if s.initialized = false ∨ fs_can_accept_operation s = 0 then (-1, [])
  else if env.calloc_ok = false then (-1, [])
  else if env.strdup_ok = false then (-1, [])
  else
    let pre := [Ev.begin_op, Ev.issue_op path]
    if env.issue_result < 0 then
      let msg := make_error_msg env.err_alloc_ok env.issue_result
      (-1, pre ++
        [Ev.write_cb (some (msg.getD "Operation failed")),
         Ev.record_error, Ev.end_op, Ev.cleanup_record])
    else
      (0, pre ++ simple_op_cb env)

/-- `fs_simple_op_mode` (lines 626-660): shared entry point of `fs_mkdir`. -/
def fs_simple_op_mode (path_is_null cb_is_null : Bool) (path : String)
    (mode : Nat) (s : FsState) (env : SimpleEnv) : Int × List Ev :=
  if path_is_null = true ∨ cb_is_null = true then (-1, [])
  else if s.initialized = false ∨ fs_can_accept_operation s = 0 then (-1, [])
  else if env.calloc_ok = false then (-1, [])
  else if env.strdup_ok = false then (-1, [])
  else
    let pre := [Ev.begin_op, Ev.issue_op_mode path mode]
    if env.issue_result < 0 then
      let msg := make_error_msg env.err_alloc_ok env.issue_result
      (-1, pre ++
        [Ev.write_cb (some (msg.getD "Operation failed")),
         Ev.record_error, Ev.end_op, Ev.cleanup_record])
    else
      (0, pre ++ simple_op_cb env)

/-- `fs_unlink` (lines 662-664). -/
def fs_unlink (path_is_null cb_is_null : Bool) (path : String)
    (s : FsState) (env : SimpleEnv) : Int × List Ev :=
  fs_simple_op path_is_null cb_is_null path s env

/-- `fs_mkdir` (lines 666-668), creation mode 0755. -/
def fs_mkdir (path_is_null cb_is_null : Bool) (path : String)
    (s : FsState) (env : SimpleEnv) : Int × List Ev :=
  fs_simple_op_mode path_is_null cb_is_null path 493 s env

/-- `fs_rmdir` (lines 670-672). -/
def fs_rmdir (path_is_null cb_is_null : Bool) (path : String)
    (s : FsState) (env : SimpleEnv) : Int × List Ev :=
  fs_simple_op path_is_null cb_is_null path s env

/-- Reactor results and allocation outcomes for `fs_rename`. -/
structure RenameEnv where
  calloc_ok : Bool
  strdup_ok : Bool
  strdup2_ok : Bool
  issue_result : Int
  op_result : Int
  err_alloc_ok : Bool
deriving Repr

/-- `rename_cb` (lines 674-692): same shape as `simple_op_cb`, with the same
missing fallback — a failed message allocation passes a null error to the
callback on a failure path. -/
def rename_cb (env : RenameEnv) : List Ev :=
  if env.op_result < 0 then
    let error := make_error_msg env.err_alloc_ok env.op_result
    [Ev.record_error, Ev.write_cb error, Ev.end_op, Ev.cleanup_record]
  else
    [Ev.write_cb none, Ev.end_op, Ev.cleanup_record]

/-- `fs_rename` (lines 694-730). -/
def fs_rename (old_is_null new_is_null cb_is_null : Bool)
    (old_path new_path : String) (s : FsState) (env : RenameEnv) :
    Int × List Ev :=
  if old_is_null = true ∨ new_is_null = true ∨ cb_is_null = true then (-1, [])
  else if s.initialized = false ∨ fs_can_accept_operation s = 0 then (-1, [])
  else if env.calloc_ok = false then (-1, [])
  else if env.strdup_ok = false ∨ env.strdup2_ok = false then (-1, [])
  else
    let pre := [Ev.begin_op, Ev.issue_rename old_path new_path]
    if env.issue_result < 0 then
      let msg := make_error_msg env.err_alloc_ok env.issue_result
      (-1, pre ++
        [Ev.write_cb (some (msg.getD "Rename failed")),
         Ev.record_error, Ev.end_op, Ev.cleanup_record])
    else
      (0, pre ++ rename_cb env)

/-! ## Claim-support definitions -/

/-- Is this event an invocation of the caller-supplied completion callback? -/
def is_user_cb : Ev → Bool
  | Ev.read_cb _ _ _ => true
  | Ev.write_cb _ => true
  | Ev.stat_cb _ _ => true
  | _ => false

/-- Number of user-callback invocations in a trace. -/
def cbCount (tr : List Ev) : Nat := tr.countP (fun e => is_user_cb e)

/-- Is this event the issuing of a `uv_fs_open` call? -/
def is_open_issue_ev : Ev → Bool
  | Ev.issue_open _ _ => true
  | _ => false

/-- Is this event a destination-buffer allocation? -/
def is_alloc_ev : Ev → Bool
  | Ev.alloc_buf _ => true
  | _ => false

/-- Is this event the issuing of a `uv_fs_read` call? -/
def is_read_issue_ev : Ev → Bool
  | Ev.issue_read _ => true
  | _ => false

/-- `precedes p q tr` holds when some event satisfying `p` occurs strictly
before some event satisfying `q` in the trace. -/
def precedes (p q : Ev → Bool) : List Ev → Bool
  | [] => false
  | e :: tr => (p e && tr.any q) || precedes p q tr

/-! ### Admission-controller transition system (claim C2) -/

/-- One transition of the admission controller as the entry points drive it:
`enter` is an admission (every entry point calls `fs_begin_operation` only
after the initialization check and after `!fs_can_accept_operation()` failed
to reject, i.e. the gate returned nonzero), `release` is a completion calling
`fs_end_operation`. -/
inductive AdmStep : FsState → FsState → Prop where
  | enter (s : FsState) (hinit : s.initialized = true)
      (hgate : fs_can_accept_operation s ≠ 0) : AdmStep s (fs_begin_operation s)
  | release (s : FsState) : AdmStep s (fs_end_operation s)

/-- States reachable from the freshly initialized module through admissions
and releases. -/
def AdmReachable (s : FsState) : Prop :=
  Relation.ReflTransGen AdmStep initState s

/-- Modelled from the spec (the header comment, ecewo-fs.h line 124: "Returns:
0 if can accept, -1 if at limit"): the convention the header documents, for
comparison with the implemented gate. -/
def fs_can_accept_operation_documented (s : FsState) : Int :=
  if s.active_operations < ECEWO_FS_MAX_CONCURRENT_OPS then 0 else -1

/-! ### Model filesystem for the write/read round-trip (claim C7) -/

/-- Modelled from the spec: the external reactor's view of the filesystem, a
partial map from paths to byte contents. -/
def ModelFS : Type := String → Option (List Nat)

/-- The payload of the first `uv_fs_write` issued in a trace, if any. -/
def issuedWrite : List Ev → Option (List Nat)
  | [] => none
  | Ev.issue_write d :: _ => some d
  | _ :: tr => issuedWrite tr

/-- Modelled from the spec: the reactor's effect on the model filesystem of a
completed open(create, truncate) → write-at-offset-0 → close chain — the file
at `p` afterwards holds exactly the issued payload. -/
def applyWrite (fs : ModelFS) (p : String) (tr : List Ev) : ModelFS :=
  match issuedWrite tr with
  | none => fs
  | some d => fun q => if q = p then some d else fs q

/-- Modelled from the spec: a reactor run against a file of content `c` in
which every step and allocation succeeds — stat reports the content's length,
the read returns the full content. -/
def readEnvOfContent (c : List Nat) : ReadEnv :=
  { calloc_ok := true
    strdup_ok := true
    issue_result := 0
    stat_result := 0
    stat_size := c.length
    open_result := 0
    alloc_ok := true
    read_result := (c.length : Int)
    read_bytes := c
    err_alloc_ok := true }

/-- Modelled from the spec: the reactor run for `fs_read_file` of path `p`
against the model filesystem `fs`; a missing file makes the initial stat
fail (`UV_ENOENT` is -2 on the common platforms). -/
def readEnvOf (fs : ModelFS) (p : String) : ReadEnv :=
  match fs p with
  | some c => readEnvOfContent c
  | none =>
    { calloc_ok := true
      strdup_ok := true
      issue_result := 0
      stat_result := -2
      stat_size := 0
      open_result := -2
      alloc_ok := true
      read_result := -2
      read_bytes := []
      err_alloc_ok := true }

/-- Modelled from the spec: a reactor run for a write of `size` bytes in which
open succeeds, the write completes fully, and every allocation succeeds. -/
def happyWriteEnv (size : Nat) : WriteEnv :=
  { calloc_ok := true
    strdup_ok := true
    data_alloc_ok := true
    issue_result := 0
    open_result := 0
    write_result := (size : Int)
    err_alloc_ok := true }

/-- The arguments of the first read-callback invocation in a trace:
`(error, data, size)`. -/
def readDelivery : List Ev → Option (Option String × Option (List Nat) × Nat)
  | [] => none
  | Ev.read_cb e d n :: _ => some (e, d, n)
  | _ :: tr => readDelivery tr

/-! ## Helper lemmas -/

@[simp]
lemma cbCount_nil : cbCount [] = 0 := rfl

@[simp]
lemma cbCount_cons (e : Ev) (tr : List Ev) :
    cbCount (e :: tr) = cbCount tr + (if is_user_cb e then 1 else 0) := by
  simp [cbCount, List.countP_cons]

@[simp]
lemma cbCount_append (a b : List Ev) :
    cbCount (a ++ b) = cbCount a + cbCount b := by
  simp [cbCount, List.countP_append]

lemma cbCount_read_close_cb (req : ReadReq) :
    cbCount (read_close_cb req) = 1 := by
  simp [read_close_cb, is_user_cb]

lemma cbCount_read_data_cb (env : ReadEnv) (req : ReadReq) :
    cbCount (read_data_cb env req) = 1 := by
  unfold read_data_cb
  split <;> simp [is_user_cb, cbCount_read_close_cb]

lemma cbCount_read_open_cb (env : ReadEnv) (req : ReadReq) :
    cbCount (read_open_cb env req) = 1 := by
  unfold read_open_cb
  split
  · simp [is_user_cb]
  · split
    · simp [is_user_cb]
    · simp [is_user_cb, cbCount_read_data_cb]

lemma cbCount_read_stat_cb (env : ReadEnv) (req : ReadReq) :
    cbCount (read_stat_cb env req) = 1 := by
  unfold read_stat_cb
  split
  · simp [is_user_cb]
  · dsimp only
    split
    · simp [is_user_cb]
    · simp [is_user_cb, cbCount_read_open_cb]

lemma cbCount_write_close_cb (req : WriteReq) :
    cbCount (write_close_cb req) = 1 := by
  simp [write_close_cb, is_user_cb]

lemma cbCount_write_data_cb (env : WriteEnv) (req : WriteReq) :
    cbCount (write_data_cb env req) = 1 := by
  unfold write_data_cb
  split <;> simp [is_user_cb, cbCount_write_close_cb]

lemma cbCount_write_open_cb (env : WriteEnv) (req : WriteReq) :
    cbCount (write_open_cb env req) = 1 := by
  unfold write_open_cb
  split <;> simp [is_user_cb, cbCount_write_data_cb]

lemma cbCount_stat_cb (env : SimpleEnv) :
    cbCount (stat_cb env) = 1 := by
  unfold stat_cb
  split <;> simp [is_user_cb]

lemma cbCount_simple_op_cb (env : SimpleEnv) :
    cbCount (simple_op_cb env) = 1 := by
  unfold simple_op_cb
  split <;> simp [is_user_cb]

lemma cbCount_rename_cb (env : RenameEnv) :
    cbCount (rename_cb env) = 1 := by
  unfold rename_cb
  split <;> simp [is_user_cb]

lemma fs_read_file_cb_once (path : String) (s : FsState) (env : ReadEnv)
    (hc : env.calloc_ok = true) (hs : env.strdup_ok = true)
    (hi : s.initialized = true) (hg : fs_can_accept_operation s ≠ 0) :
    cbCount (fs_read_file false false path s env).2 = 1 := by
  unfold fs_read_file
  rw [if_neg (by simp : ¬(false = true ∨ false = true)),
    if_neg (by simp [hi] : ¬s.initialized = false), if_neg hg,
    if_neg (by simp [hc] : ¬env.calloc_ok = false),
    if_neg (by simp [hs] : ¬env.strdup_ok = false)]
  split <;> simp [is_user_cb, cbCount_read_stat_cb]

lemma fs_read_file_reject (pn cn : Bool) (path : String) (s : FsState)
    (env : ReadEnv)
    (h : pn = true ∨ cn = true ∨ s.initialized = false ∨
      fs_can_accept_operation s = 0) :
    fs_read_file pn cn path s env = (-1, []) := by
  unfold fs_read_file
  by_cases h1 : pn = true ∨ cn = true
  · simp [h1]
  · by_cases h2 : s.initialized = false
    · simp [h1, h2]
    · by_cases h3 : fs_can_accept_operation s = 0
      · simp [h1, h2, h3]
      · rcases h with h | h | h | h <;> simp_all

lemma fs_write_internal_cb_once (path : String) (data : List Nat) (size : Nat)
    (flags : OpenFlags) (s : FsState) (env : WriteEnv)
    (hc : env.calloc_ok = true) (hs : env.strdup_ok = true)
    (hd : env.data_alloc_ok = true) (hi : s.initialized = true)
    (hg : fs_can_accept_operation s ≠ 0)
    (hsz : size ≤ ECEWO_FS_MAX_FILE_SIZE) :
    cbCount (fs_write_internal false false false path data size flags s env).2
      = 1 := by
  unfold fs_write_internal
  rw [if_neg (by simp : ¬(false = true ∨ false = true ∨ false = true)),
    if_neg (by simp [hi] : ¬s.initialized = false), if_neg hg,
    if_neg (by omega : ¬ECEWO_FS_MAX_FILE_SIZE < size),
    if_neg (by simp [hc] : ¬env.calloc_ok = false),
    if_neg (by simp [hs, hd] :
      ¬(env.strdup_ok = false ∨ env.data_alloc_ok = false))]
  split <;> simp [is_user_cb, cbCount_write_open_cb]

lemma fs_write_internal_reject (pn dn cn : Bool) (path : String)
    (data : List Nat) (size : Nat) (flags : OpenFlags) (s : FsState)
    (env : WriteEnv)
    (h : pn = true ∨ dn = true ∨ cn = true ∨ s.initialized = false ∨
      fs_can_accept_operation s = 0 ∨ ECEWO_FS_MAX_FILE_SIZE < size) :
    fs_write_internal pn dn cn path data size flags s env = (-1, []) := by
  unfold fs_write_internal
  by_cases h1 : pn = true ∨ dn = true ∨ cn = true
  · simp [h1]
  · by_cases h2 : s.initialized = false
    · simp [h1, h2]
    · by_cases h3 : fs_can_accept_operation s = 0
      · simp [h1, h2, h3]
      · by_cases h4 : ECEWO_FS_MAX_FILE_SIZE < size
        · simp [h1, h2, h3, h4]
        · rcases h with h | h | h | h | h | h <;> simp_all

lemma fs_stat_cb_once (path : String) (s : FsState) (env : SimpleEnv)
    (hc : env.calloc_ok = true) (hs : env.strdup_ok = true)
    (hi : s.initialized = true) (hg : fs_can_accept_operation s ≠ 0) :
    cbCount (fs_stat false false path s env).2 = 1 := by
  unfold fs_stat
  rw [if_neg (by simp : ¬(false = true ∨ false = true)),
    if_neg (by simp [hi] : ¬s.initialized = false), if_neg hg,
    if_neg (by simp [hc] : ¬env.calloc_ok = false),
    if_neg (by simp [hs] : ¬env.strdup_ok = false)]
  split <;> simp [is_user_cb, cbCount_stat_cb]

lemma fs_stat_reject (pn cn : Bool) (path : String) (s : FsState)
    (env : SimpleEnv)
    (h : pn = true ∨ cn = true ∨ s.initialized = false ∨
      fs_can_accept_operation s = 0) :
    fs_stat pn cn path s env = (-1, []) := by
  unfold fs_stat
  by_cases h1 : pn = true ∨ cn = true
  · simp [h1]
  · by_cases h2 : s.initialized = false
    · simp [h1, h2]
    · by_cases h3 : fs_can_accept_operation s = 0
      · simp [h1, h2, h3]
      · rcases h with h | h | h | h <;> simp_all

lemma fs_simple_op_cb_once (path : String) (s : FsState) (env : SimpleEnv)
    (hc : env.calloc_ok = true) (hs : env.strdup_ok = true)
    (hi : s.initialized = true) (hg : fs_can_accept_operation s ≠ 0) :
    cbCount (fs_simple_op false false path s env).2 = 1 := by
  unfold fs_simple_op
  rw [if_neg (by simp : ¬(false = true ∨ false = true)),
    if_neg (by simp [hi, hg] :
      ¬(s.initialized = false ∨ fs_can_accept_operation s = 0)),
    if_neg (by simp [hc] : ¬env.calloc_ok = false),
    if_neg (by simp [hs] : ¬env.strdup_ok = false)]
  split <;> simp [is_user_cb, cbCount_simple_op_cb]

lemma fs_simple_op_reject (pn cn : Bool) (path : String) (s : FsState)
    (env : SimpleEnv)
    (h : pn = true ∨ cn = true ∨ s.initialized = false ∨
      fs_can_accept_operation s = 0) :
    fs_simple_op pn cn path s env = (-1, []) := by
  unfold fs_simple_op
  by_cases h1 : pn = true ∨ cn = true
  · simp [h1]
  · have h2 : s.initialized = false ∨ fs_can_accept_operation s = 0 := by
      tauto
    simp [h1, h2]

lemma fs_simple_op_mode_cb_once (path : String) (mode : Nat) (s : FsState)
    (env : SimpleEnv)
    (hc : env.calloc_ok = true) (hs : env.strdup_ok = true)
    (hi : s.initialized = true) (hg : fs_can_accept_operation s ≠ 0) :
    cbCount (fs_simple_op_mode false false path mode s env).2 = 1 := by
  unfold fs_simple_op_mode
  rw [if_neg (by simp : ¬(false = true ∨ false = true)),
    if_neg (by simp [hi, hg] :
      ¬(s.initialized = false ∨ fs_can_accept_operation s = 0)),
    if_neg (by simp [hc] : ¬env.calloc_ok = false),
    if_neg (by simp [hs] : ¬env.strdup_ok = false)]
  split <;> simp [is_user_cb, cbCount_simple_op_cb]

lemma fs_simple_op_mode_reject (pn cn : Bool) (path : String) (mode : Nat)
    (s : FsState) (env : SimpleEnv)
    (h : pn = true ∨ cn = true ∨ s.initialized = false ∨
      fs_can_accept_operation s = 0) :
    fs_simple_op_mode pn cn path mode s env = (-1, []) := by
  unfold fs_simple_op_mode
  by_cases h1 : pn = true ∨ cn = true
  · simp [h1]
  · have h2 : s.initialized = false ∨ fs_can_accept_operation s = 0 := by
      tauto
    simp [h1, h2]

lemma fs_rename_cb_once (p1 p2 : String) (s : FsState) (env : RenameEnv)
    (hc : env.calloc_ok = true) (hs : env.strdup_ok = true)
    (hs2 : env.strdup2_ok = true)
    (hi : s.initialized = true) (hg : fs_can_accept_operation s ≠ 0) :
    cbCount (fs_rename false false false p1 p2 s env).2 = 1 := by
  unfold fs_rename
  rw [if_neg (by simp : ¬(false = true ∨ false = true ∨ false = true)),
    if_neg (by simp [hi, hg] :
      ¬(s.initialized = false ∨ fs_can_accept_operation s = 0)),
    if_neg (by simp [hc] : ¬env.calloc_ok = false),
    if_neg (by simp [hs, hs2] :
      ¬(env.strdup_ok = false ∨ env.strdup2_ok = false))]
  split <;> simp [is_user_cb, cbCount_rename_cb]

lemma fs_rename_reject (po pn2 pc : Bool) (p1 p2 : String) (s : FsState)
    (env : RenameEnv)
    (h : po = true ∨ pn2 = true ∨ pc = true ∨ s.initialized = false ∨
      fs_can_accept_operation s = 0) :
    fs_rename po pn2 pc p1 p2 s env = (-1, []) := by
  unfold fs_rename
  by_cases h1 : po = true ∨ pn2 = true ∨ pc = true
  · simp [h1]
  · have h2 : s.initialized = false ∨ fs_can_accept_operation s = 0 := by
      tauto
    simp [h1, h2]

lemma gate_lt_of_ne_zero (s : FsState) (hi : s.initialized = true)
    (hg : fs_can_accept_operation s ≠ 0) :
    s.active_operations < ECEWO_FS_MAX_CONCURRENT_OPS := by
  unfold fs_can_accept_operation at hg
  rw [if_neg (by simp [hi])] at hg
  by_contra h
  rw [if_neg h] at hg
  exact hg rfl

lemma fs_begin_operation_active (s : FsState) :
    (fs_begin_operation s).active_operations = s.active_operations + 1 := by
  unfold fs_begin_operation
  dsimp only
  split <;> rfl

lemma fs_begin_operation_peak (s : FsState) :
    (fs_begin_operation s).peak_operations =
      max s.peak_operations (s.active_operations + 1) := by
  unfold fs_begin_operation
  dsimp only
  split
  · next h =>
    rw [max_eq_right (le_of_lt h)]
  · next h =>
    rw [max_eq_left (not_lt.mp h)]

lemma fs_end_operation_eq (s : FsState) :
    fs_end_operation s =
      { s with active_operations :=
          if 0 < s.active_operations then s.active_operations - 1
          else s.active_operations } := by
  unfold fs_end_operation
  split <;> simp_all

@[simp]
lemma gate_initState : fs_can_accept_operation initState = 1 := by decide

lemma admStep_preserves {a b : FsState} (h : AdmStep a b)
    (ih : 0 ≤ a.active_operations ∧
      a.active_operations ≤ ECEWO_FS_MAX_CONCURRENT_OPS) :
    0 ≤ b.active_operations ∧
      b.active_operations ≤ ECEWO_FS_MAX_CONCURRENT_OPS := by
  cases h with
  | enter hinit hgate =>
    have hlt := gate_lt_of_ne_zero a hinit hgate
    have ha := fs_begin_operation_active a
    constructor <;> omega
  | release =>
    have he := congrArg FsState.active_operations (fs_end_operation_eq a)
    dsimp at he
    constructor <;> (rw [he]; split <;> omega)

/-! ## Claim theorems -/

/-- Claim C2: every state reachable through the admission-controller
transitions (gate, `fs_begin_operation` on admission, `fs_end_operation` on
completion) keeps `0 ≤ active_operations ≤ ECEWO_FS_MAX_CONCURRENT_OPS`; an
operation is admitted only when `active` is strictly below the ceiling (with
`peak` raised when exceeded), and release decrements `active` floored at 0
with no other change to the registry. -/
theorem C2_admission_bounds :
    (∀ s : FsState, AdmReachable s →
      0 ≤ s.active_operations ∧
        s.active_operations ≤ ECEWO_FS_MAX_CONCURRENT_OPS) ∧
    (∀ s : FsState, s.initialized = true → fs_can_accept_operation s ≠ 0 →
      s.active_operations < ECEWO_FS_MAX_CONCURRENT_OPS) ∧
    (∀ s : FsState, fs_end_operation s =
      { s with active_operations :=
          if 0 < s.active_operations then s.active_operations - 1
          else s.active_operations }) ∧
    (∀ s : FsState,
      (fs_begin_operation s).active_operations = s.active_operations + 1 ∧
      (fs_begin_operation s).peak_operations =
        max s.peak_operations (s.active_operations + 1)) := by
  refine ⟨?_, gate_lt_of_ne_zero, fs_end_operation_eq,
    fun s => ⟨fs_begin_operation_active s, fs_begin_operation_peak s⟩⟩
  intro s h
  induction h with
  | refl => exact ⟨by decide, by decide⟩
  | tail hst step ih => exact admStep_preserves step ih

/-- Witness for C2 at the state reached by one admission from the freshly
initialized module. -/
theorem C2_witness :
    0 ≤ (fs_begin_operation initState).active_operations ∧
      (fs_begin_operation initState).active_operations ≤
        ECEWO_FS_MAX_CONCURRENT_OPS :=
  C2_admission_bounds.1 (fs_begin_operation initState)
    (Relation.ReflTransGen.single (AdmStep.enter initState rfl (by decide)))

/-- A state with nonzero statistics, used to exercise `fs_reset_stats`. -/
def resetSample : FsState :=
  { initState with active_operations := 2, peak_operations := 5,
                   total_reads := 7, failed_operations := 3 }

/-- Claim C4 counterexample: `fs_reset_stats` does NOT leave
`peak_operations` unchanged — the code zeroes it (ecewo-fs.c line 116). -/
theorem C4_counterexample :
    ¬ (fs_reset_stats resetSample).peak_operations =
        resetSample.peak_operations := by decide

/-- Claim C4 (amended): `fs_reset_stats` zeroes the cumulative counters AND
`peak_operations`, leaving `active_operations` (and `queued_operations` and
the initialized flag) unchanged; it is a no-op when the module is not
initialized. -/
theorem C4_reset_stats_frame : ∀ s : FsState,
    (fs_reset_stats s).active_operations = s.active_operations ∧
    (fs_reset_stats s).queued_operations = s.queued_operations ∧
    (fs_reset_stats s).initialized = s.initialized ∧
    (s.initialized = true →
      fs_reset_stats s =
        { s with total_reads := 0, total_writes := 0, total_bytes_read := 0,
                 total_bytes_written := 0, failed_operations := 0,
                 peak_operations := 0 }) ∧
    (s.initialized = false → fs_reset_stats s = s) := by
  intro s
  by_cases hi : s.initialized = false
  · simp [fs_reset_stats, hi]
  · unfold fs_reset_stats
    rw [if_neg hi]
    exact ⟨rfl, rfl, rfl, fun _ => rfl, fun h => absurd h hi⟩

/-- Witness for C4's amended theorem on a state with nonzero counters. -/
theorem C4_witness :
    fs_reset_stats resetSample =
      { resetSample with total_reads := 0, total_writes := 0,
                         total_bytes_read := 0, total_bytes_written := 0,
                         failed_operations := 0, peak_operations := 0 } :=
  (C4_reset_stats_frame resetSample).2.2.2.1 rfl

lemma cleanupLoop_le (obs : Nat → Int) :
    ∀ (fuel k : Nat), cleanupLoop obs fuel k ≤ k + fuel := by
  intro fuel
  induction fuel with
  | zero => intro k; simp [cleanupLoop]
  | succ n ih =>
    intro k
    unfold cleanupLoop
    split
    · exact le_trans (ih (k + 1)) (by omega)
    · omega

/-- Claim C8: `fs_cleanup` polls `active_operations` at most 100 times with a
10 ms sleep between polls (at most about one second of waiting), and whether
or not the count reached zero it proceeds to tear down the lock, warning
exactly when operations remain active at the last observation; on a
non-initialized module it is a no-op. -/
theorem C8_bounded_shutdown : ∀ (initialized : Bool) (obs : Nat → Int),
    (fs_cleanup initialized obs).polls ≤ cleanup_max_polls ∧
    cleanup_sleep_ms * (fs_cleanup initialized obs).polls ≤ 1000 ∧
    (initialized = true →
      (fs_cleanup initialized obs).lock_destroyed = true ∧
      ((fs_cleanup initialized obs).warning = true ↔
        0 < obs ((fs_cleanup initialized obs).polls))) ∧
    (initialized = false →
      fs_cleanup initialized obs =
        { polls := 0, warning := false, lock_destroyed := false }) := by
  intro initialized obs
  cases initialized with
  | false => simp [fs_cleanup]
  | true =>
    have hle : cleanupLoop obs cleanup_max_polls 0 ≤ cleanup_max_polls := by
      simpa using cleanupLoop_le obs cleanup_max_polls 0
    have hfc : fs_cleanup true obs =
        { polls := cleanupLoop obs cleanup_max_polls 0
          warning := decide (0 < obs (cleanupLoop obs cleanup_max_polls 0))
          lock_destroyed := true } := rfl
    rw [hfc]
    refine ⟨hle, ?_, fun _ => ⟨rfl, by simp⟩, fun h => absurd h (by decide)⟩
    show cleanup_sleep_ms * cleanupLoop obs cleanup_max_polls 0 ≤ 1000
    have h10 : cleanup_sleep_ms = 10 := rfl
    have h100 : cleanup_max_polls = 100 := rfl
    rw [h10, h100]
    rw [h100] at hle
    omega

/-- Witness for C8: shutting down with no in-flight operations polls zero
times, destroys the lock and warns nothing. -/
theorem C8_witness :
    (fs_cleanup true (fun _ => 0)).lock_destroyed = true ∧
      ((fs_cleanup true (fun _ => 0)).warning = true ↔
        0 < (fun _ => (0 : Int)) ((fs_cleanup true (fun _ => 0)).polls)) :=
  (C8_bounded_shutdown true (fun _ => 0)).2.2.1 rfl

/-- Claim C9: `fs_can_accept_operation` returns -1 when the module is not
initialized, 1 when `active_operations` is below the ceiling and 0 at the
ceiling, so for an initialized module a truthy (nonzero) return means
capacity is available — the exact opposite of the header comment's
"0 if can accept, -1 if at limit" convention
(`fs_can_accept_operation_documented`). -/
theorem C9_gate_convention : ∀ s : FsState,
    (s.initialized = false → fs_can_accept_operation s = -1) ∧
    (s.initialized = true →
      (s.active_operations < ECEWO_FS_MAX_CONCURRENT_OPS →
        fs_can_accept_operation s = 1) ∧
      (¬ s.active_operations < ECEWO_FS_MAX_CONCURRENT_OPS →
        fs_can_accept_operation s = 0) ∧
      (fs_can_accept_operation s ≠ 0 ↔
        s.active_operations < ECEWO_FS_MAX_CONCURRENT_OPS) ∧
      (fs_can_accept_operation s = 1 ↔
        fs_can_accept_operation_documented s = 0) ∧
      (fs_can_accept_operation s = 0 ↔
        fs_can_accept_operation_documented s = -1)) := by
  intro s
  unfold fs_can_accept_operation fs_can_accept_operation_documented
  by_cases hi : s.initialized = false
  · simp [hi]
  · by_cases ha : s.active_operations < ECEWO_FS_MAX_CONCURRENT_OPS <;>
      simp [hi, ha]

/-- Witness for C9 on the freshly initialized module (capacity available). -/
theorem C9_witness : fs_can_accept_operation initState = 1 :=
  ((C9_gate_convention initState).2 rfl).1 (by decide)

/-- A module state that has not been initialized. -/
def uninitState : FsState := { initState with initialized := false }

/-- A sample snapshot struct with recognizable field values. -/
def sampleStats : fs_stats_t :=
  { active_operations := 1, peak_operations := 2, queued_operations := 3,
    total_reads := 4, total_writes := 5, total_bytes_read := 6,
    total_bytes_written := 7, failed_operations := 8 }

/-- Claim C10: `fs_get_stats` called with a null out-pointer or on a
non-initialized module writes nothing — the caller's struct is left exactly
as it was and no snapshot is produced. -/
theorem C10_get_stats_frame : ∀ (s : FsState) (stats : Option fs_stats_t),
    stats = none ∨ s.initialized = false → fs_get_stats s stats = stats := by
  intro s stats h
  rcases h with h | h
  · subst h; rfl
  · cases stats with
    | none => rfl
    | some prev => simp [fs_get_stats, h]

/-- Witness for C10: an uninitialized module leaves the caller's struct
untouched. -/
theorem C10_witness :
    fs_get_stats uninitState (some sampleStats) = some sampleStats :=
  C10_get_stats_frame uninitState (some sampleStats) (Or.inr rfl)

/-- Claim C1: for every operation whose Record is created (read, write,
append, stat, unlink, mkdir, rmdir, rename) the caller's callback is invoked
exactly once across every environment — success, every distinct failure
point, and the synchronous issue-failure path alike — while the rejection
paths that create no Record (null path/callback, module not initialized,
admission gate returning 0, oversized write payload) invoke the callback
zero times (the trace is empty) and report failure only through the entry
point's -1 return. -/
theorem C1_exactly_one_callback :
    (∀ (path : String) (s : FsState) (env : ReadEnv),
      env.calloc_ok = true → env.strdup_ok = true → s.initialized = true →
      fs_can_accept_operation s ≠ 0 →
      cbCount (fs_read_file false false path s env).2 = 1) ∧
    (∀ (pn cn : Bool) (path : String) (s : FsState) (env : ReadEnv),
      pn = true ∨ cn = true ∨ s.initialized = false ∨
        fs_can_accept_operation s = 0 →
      fs_read_file pn cn path s env = (-1, [])) ∧
    (∀ (path : String) (data : List Nat) (size : Nat) (s : FsState)
      (env : WriteEnv),
      env.calloc_ok = true → env.strdup_ok = true →
      env.data_alloc_ok = true → s.initialized = true →
      fs_can_accept_operation s ≠ 0 → size ≤ ECEWO_FS_MAX_FILE_SIZE →
      cbCount (fs_write_file false false false path data size s env).2 = 1 ∧
      cbCount (fs_append_file false false false path data size s env).2 = 1) ∧
    (∀ (pn dn cn : Bool) (path : String) (data : List Nat) (size : Nat)
      (s : FsState) (env : WriteEnv),
      pn = true ∨ dn = true ∨ cn = true ∨ s.initialized = false ∨
        fs_can_accept_operation s = 0 ∨ ECEWO_FS_MAX_FILE_SIZE < size →
      fs_write_file pn dn cn path data size s env = (-1, []) ∧
      fs_append_file pn dn cn path data size s env = (-1, [])) ∧
    (∀ (path : String) (s : FsState) (env : SimpleEnv),
      env.calloc_ok = true → env.strdup_ok = true → s.initialized = true →
      fs_can_accept_operation s ≠ 0 →
      cbCount (fs_stat false false path s env).2 = 1 ∧
      cbCount (fs_unlink false false path s env).2 = 1 ∧
      cbCount (fs_mkdir false false path s env).2 = 1 ∧
      cbCount (fs_rmdir false false path s env).2 = 1) ∧
    (∀ (pn cn : Bool) (path : String) (s : FsState) (env : SimpleEnv),
      pn = true ∨ cn = true ∨ s.initialized = false ∨
        fs_can_accept_operation s = 0 →
      fs_stat pn cn path s env = (-1, []) ∧
      fs_unlink pn cn path s env = (-1, []) ∧
      fs_mkdir pn cn path s env = (-1, []) ∧
      fs_rmdir pn cn path s env = (-1, [])) ∧
    (∀ (p1 p2 : String) (s : FsState) (env : RenameEnv),
      env.calloc_ok = true → env.strdup_ok = true → env.strdup2_ok = true →
      s.initialized = true → fs_can_accept_operation s ≠ 0 →
      cbCount (fs_rename false false false p1 p2 s env).2 = 1) ∧
    (∀ (po pn2 pc : Bool) (p1 p2 : String) (s : FsState) (env : RenameEnv),
      po = true ∨ pn2 = true ∨ pc = true ∨ s.initialized = false ∨
        fs_can_accept_operation s = 0 →
      fs_rename po pn2 pc p1 p2 s env = (-1, [])) := by
  refine ⟨fs_read_file_cb_once, fs_read_file_reject, ?_, ?_, ?_, ?_,
    fs_rename_cb_once, ?_⟩
  · intro path data size s env hc hs hd hi hg hsz
    exact ⟨fs_write_internal_cb_once path data size _ s env hc hs hd hi hg hsz,
      fs_write_internal_cb_once path data size _ s env hc hs hd hi hg hsz⟩
  · intro pn dn cn path data size s env h
    exact ⟨fs_write_internal_reject pn dn cn path data size _ s env h,
      fs_write_internal_reject pn dn cn path data size _ s env h⟩
  · intro path s env hc hs hi hg
    exact ⟨fs_stat_cb_once path s env hc hs hi hg,
      fs_simple_op_cb_once path s env hc hs hi hg,
      fs_simple_op_mode_cb_once path 493 s env hc hs hi hg,
      fs_simple_op_cb_once path s env hc hs hi hg⟩
  · intro pn cn path s env h
    exact ⟨fs_stat_reject pn cn path s env h,
      fs_simple_op_reject pn cn path s env h,
      fs_simple_op_mode_reject pn cn path 493 s env h,
      fs_simple_op_reject pn cn path s env h⟩
  · intro po pn2 pc p1 p2 s env h
    exact fs_rename_reject po pn2 pc p1 p2 s env h

/-- Witness for C1: one successful read invokes the callback once, and a read
issued on a non-initialized module is rejected with -1 and no callback. -/
theorem C1_witness :
    cbCount (fs_read_file false false "a.txt" initState
        (readEnvOfContent [1, 2])).2 = 1 ∧
    fs_read_file false false "a.txt" uninitState
        (readEnvOfContent [1, 2]) = (-1, []) :=
  ⟨C1_exactly_one_callback.1 "a.txt" initState _ rfl rfl rfl (by decide),
   C1_exactly_one_callback.2.1 false false "a.txt" uninitState _
     (Or.inr (Or.inr (Or.inl rfl)))⟩

/-- Claim C3: a read whose stat-reported size exceeds
`ECEWO_FS_MAX_FILE_SIZE` terminates right after the stat completion with a
"File too large" failure and a null buffer — its whole trace is the stat
issue followed by the terminal error, with no open, allocation or read
issued; a write or append whose payload exceeds the ceiling is rejected with
-1 before any event (no record, no I/O); in neither case is data silently
truncated. -/
theorem C3_size_ceiling :
    (∀ (path : String) (s : FsState) (env : ReadEnv),
      env.calloc_ok = true → env.strdup_ok = true → s.initialized = true →
      fs_can_accept_operation s ≠ 0 → 0 ≤ env.issue_result →
      0 ≤ env.stat_result → ECEWO_FS_MAX_FILE_SIZE < env.stat_size →
      (fs_read_file false false path s env).2 =
        [Ev.begin_op, Ev.issue_stat path,
         Ev.read_cb (some "File too large") none 0,
         Ev.record_error, Ev.end_op, Ev.cleanup_record]) ∧
    (∀ (pn dn cn : Bool) (path : String) (data : List Nat) (size : Nat)
      (s : FsState) (env : WriteEnv), ECEWO_FS_MAX_FILE_SIZE < size →
      fs_write_file pn dn cn path data size s env = (-1, []) ∧
      fs_append_file pn dn cn path data size s env = (-1, [])) := by
  constructor
  · intro path s env hc hs hi hg hiss hst hsz
    unfold fs_read_file
    rw [if_neg (by simp : ¬(false = true ∨ false = true)),
      if_neg (by simp [hi] : ¬s.initialized = false), if_neg hg,
      if_neg (by simp [hc] : ¬env.calloc_ok = false),
      if_neg (by simp [hs] : ¬env.strdup_ok = false),
      if_neg (by omega : ¬env.issue_result < 0)]
    unfold read_stat_cb
    rw [if_neg (by omega : ¬env.stat_result < 0)]
    dsimp only
    rw [if_pos hsz]
    rfl
  · intro pn dn cn path data size s env hsz
    have h : pn = true ∨ dn = true ∨ cn = true ∨ s.initialized = false ∨
        fs_can_accept_operation s = 0 ∨ ECEWO_FS_MAX_FILE_SIZE < size :=
      Or.inr (Or.inr (Or.inr (Or.inr (Or.inr hsz))))
    exact ⟨fs_write_internal_reject pn dn cn path data size _ s env h,
      fs_write_internal_reject pn dn cn path data size _ s env h⟩

/-- A reactor run whose stat succeeds but reports a size one byte over the
ceiling. -/
def oversizeStatEnv : ReadEnv :=
  { readEnvOfContent [] with stat_size := ECEWO_FS_MAX_FILE_SIZE + 1 }

/-- Witness for C3: the oversized read's full trace, and an oversized
write/append rejected with an empty trace. -/
theorem C3_witness :
    (fs_read_file false false "big.bin" initState oversizeStatEnv).2 =
      [Ev.begin_op, Ev.issue_stat "big.bin",
       Ev.read_cb (some "File too large") none 0,
       Ev.record_error, Ev.end_op, Ev.cleanup_record] ∧
    fs_write_file false false false "big.bin" []
      (ECEWO_FS_MAX_FILE_SIZE + 1) initState (happyWriteEnv 0) = (-1, []) :=
  ⟨C3_size_ceiling.1 "big.bin" initState oversizeStatEnv rfl rfl rfl
      (by decide) (by decide) (by decide) (by decide),
   (C3_size_ceiling.2 false false false "big.bin" []
      (ECEWO_FS_MAX_FILE_SIZE + 1) initState (happyWriteEnv 0)
      (by decide)).1⟩

/-- A single-step reactor run failing with `UV_ENOENT` (-2) in which the
error-message buffer allocation also fails. -/
def c5SimpleEnv : SimpleEnv :=
  { calloc_ok := true, strdup_ok := true, issue_result := 0,
    op_result := -2, err_alloc_ok := false }

/-- The rename analogue of `c5SimpleEnv`. -/
def c5RenameEnv : RenameEnv :=
  { calloc_ok := true, strdup_ok := true, strdup2_ok := true,
    issue_result := 0, op_result := -2, err_alloc_ok := false }

/-- Claim C5 (code-bug evaluation): when the async completion of an
unlink (or rename) fails and `make_error_msg`'s buffer allocation fails too,
the callback receives a NULL error on a failure path (`record_error` is in
the trace, yet the `write_cb` error argument is `none`) — `simple_op_cb` and
`rename_cb` have no non-null fallback string, unlike every other failure
site. -/
theorem C5_null_error_on_failure :
    (fs_unlink false false "f.txt" initState c5SimpleEnv).2 =
      [Ev.begin_op, Ev.issue_op "f.txt", Ev.record_error, Ev.write_cb none,
       Ev.end_op, Ev.cleanup_record] ∧
    (fs_rename false false false "a" "b" initState c5RenameEnv).2 =
      [Ev.begin_op, Ev.issue_rename "a" "b", Ev.record_error,
       Ev.write_cb none, Ev.end_op, Ev.cleanup_record] := by decide

/-- An all-success reactor run for a 3-byte file. -/
def c6ReadEnv : ReadEnv := readEnvOfContent [1, 2, 3]

/-- Claim C6 counterexample: in a fully successful read no destination-buffer
allocation precedes the open — the open is issued first and the buffer is
allocated only in the open completion (ecewo-fs.c lines 254-261), refuting
"allocated ... before the open ... is issued". -/
theorem C6_counterexample :
    precedes is_alloc_ev is_open_issue_ev
        (fs_read_file false false "a.txt" initState c6ReadEnv).2 = false ∧
    precedes is_open_issue_ev is_alloc_ev
        (fs_read_file false false "a.txt" initState c6ReadEnv).2 = true := by
  decide

/-- Claim C6 (amended): once the size-ceiling check has passed, the
read-only open is issued first; the destination buffer of `file_size + 1`
bytes is allocated only after the open completes successfully, and (when the
allocation succeeds) before the read is issued. -/
theorem C6_alloc_after_open : ∀ (path : String) (s : FsState) (env : ReadEnv),
    env.calloc_ok = true → env.strdup_ok = true → s.initialized = true →
    fs_can_accept_operation s ≠ 0 → 0 ≤ env.issue_result →
    0 ≤ env.stat_result → env.stat_size ≤ ECEWO_FS_MAX_FILE_SIZE →
    0 ≤ env.open_result →
    Ev.alloc_buf (env.stat_size + 1) ∈ (fs_read_file false false path s env).2 ∧
    precedes is_open_issue_ev is_alloc_ev
      (fs_read_file false false path s env).2 = true ∧
    (env.alloc_ok = true →
      precedes is_alloc_ev is_read_issue_ev
        (fs_read_file false false path s env).2 = true) := by
  intro path s env hc hs hi hg hiss hst hsz hop
  unfold fs_read_file
  rw [if_neg (by simp : ¬(false = true ∨ false = true)),
    if_neg (by simp [hi] : ¬s.initialized = false), if_neg hg,
    if_neg (by simp [hc] : ¬env.calloc_ok = false),
    if_neg (by simp [hs] : ¬env.strdup_ok = false),
    if_neg (by omega : ¬env.issue_result < 0)]
  unfold read_stat_cb
  rw [if_neg (by omega : ¬env.stat_result < 0)]
  dsimp only
  rw [if_neg (by omega : ¬ECEWO_FS_MAX_FILE_SIZE < env.stat_size)]
  unfold read_open_cb
  rw [if_neg (by omega : ¬env.open_result < 0)]
  by_cases hal : env.alloc_ok = false
  · rw [if_pos hal]
    refine ⟨by simp, by simp [precedes, is_open_issue_ev, is_alloc_ev],
      fun h => by rw [h] at hal; cases hal⟩
  · rw [if_neg hal]
    refine ⟨by simp, by simp [precedes, is_open_issue_ev, is_alloc_ev],
      fun _ => by simp [precedes, is_alloc_ev, is_read_issue_ev]⟩

/-- Witness for C6's amended theorem on a successful 3-byte read. -/
theorem C6_witness :
    Ev.alloc_buf (c6ReadEnv.stat_size + 1) ∈
        (fs_read_file false false "a.txt" initState c6ReadEnv).2 ∧
      precedes is_open_issue_ev is_alloc_ev
        (fs_read_file false false "a.txt" initState c6ReadEnv).2 = true ∧
      (c6ReadEnv.alloc_ok = true →
        precedes is_alloc_ev is_read_issue_ev
          (fs_read_file false false "a.txt" initState c6ReadEnv).2 = true) :=
  C6_alloc_after_open "a.txt" initState c6ReadEnv rfl rfl rfl (by decide)
    (by decide) (by decide) (by decide) (by decide)

lemma fs_write_file_happy (p : String) (D : List Nat)
    (hD : D.length ≤ ECEWO_FS_MAX_FILE_SIZE) :
    fs_write_file false false false p D D.length initState
        (happyWriteEnv D.length) =
      (0, [Ev.begin_op, Ev.issue_open p OpenFlags.wronly_creat_trunc,
           Ev.issue_write D, Ev.issue_close, Ev.write_cb none,
           Ev.record_write D.length, Ev.end_op, Ev.cleanup_record]) := by
  have h1 : ¬ECEWO_FS_MAX_FILE_SIZE < D.length := not_lt.mpr hD
  have h2 : ¬(D.length : Int) < 0 := by omega
  have h3 : ¬(0 : Int) < 0 := by omega
  have h4 : ¬initState.initialized = false := by decide
  have h5 : ¬fs_can_accept_operation initState = 0 := by decide
  unfold fs_write_file fs_write_internal write_open_cb write_data_cb
    write_close_cb happyWriteEnv
  simp [h1, h2, h3, h4, h5, List.take_length]

lemma fs_read_file_content (p : String) (c : List Nat)
    (hc : c.length ≤ ECEWO_FS_MAX_FILE_SIZE) :
    fs_read_file false false p initState (readEnvOfContent c) =
      (0, [Ev.begin_op, Ev.issue_stat p, Ev.issue_open p OpenFlags.rdonly,
           Ev.alloc_buf (c.length + 1), Ev.issue_read c.length, Ev.issue_close,
           Ev.read_cb none (some (c ++ [0])) c.length,
           Ev.record_read c.length, Ev.end_op, Ev.cleanup_record]) := by
  have h1 : ¬ECEWO_FS_MAX_FILE_SIZE < c.length := not_lt.mpr hc
  have h2 : ¬(c.length : Int) < 0 := by omega
  have h3 : ¬(0 : Int) < 0 := by omega
  have h4 : ¬initState.initialized = false := by decide
  have h5 : ¬fs_can_accept_operation initState = 0 := by decide
  unfold fs_read_file read_stat_cb read_open_cb read_data_cb read_close_cb
    readEnvOfContent
  simp [h1, h2, h3, h4, h5]

/-- Claim C7: for every path and payload `D` within the size ceiling, a
successful `fs_write_file` copies the payload at call time and issues exactly
`D` to the reactor (the caller's buffer is never retained), the model
filesystem then holds `D` at the path, and a subsequent successful
`fs_read_file` delivers a callback with a null error, a buffer whose first
`len(D)` bytes equal `D` (followed by the null terminator) and reported
length `len(D)` — the write/read round-trip. -/
theorem C7_write_read_roundtrip :
    ∀ (fs0 : ModelFS) (p : String) (D : List Nat),
      D.length ≤ ECEWO_FS_MAX_FILE_SIZE →
      (fs_write_file false false false p D D.length initState
          (happyWriteEnv D.length)).1 = 0 ∧
      issuedWrite (fs_write_file false false false p D D.length initState
          (happyWriteEnv D.length)).2 = some D ∧
      applyWrite fs0 p (fs_write_file false false false p D D.length initState
          (happyWriteEnv D.length)).2 p = some D ∧
      (fs_read_file false false p initState
          (readEnvOf (applyWrite fs0 p
            (fs_write_file false false false p D D.length initState
              (happyWriteEnv D.length)).2) p)).1 = 0 ∧
      readDelivery (fs_read_file false false p initState
          (readEnvOf (applyWrite fs0 p
            (fs_write_file false false false p D D.length initState
              (happyWriteEnv D.length)).2) p)).2 =
        some (none, some (D ++ [0]), D.length) ∧
      (D ++ [0]).take D.length = D := by
  intro fs0 p D hD
  rw [fs_write_file_happy p D hD]
  have hiw : issuedWrite
      [Ev.begin_op, Ev.issue_open p OpenFlags.wronly_creat_trunc,
       Ev.issue_write D, Ev.issue_close, Ev.write_cb none,
       Ev.record_write D.length, Ev.end_op, Ev.cleanup_record] = some D := rfl
  have hfs1 : applyWrite fs0 p
      [Ev.begin_op, Ev.issue_open p OpenFlags.wronly_creat_trunc,
       Ev.issue_write D, Ev.issue_close, Ev.write_cb none,
       Ev.record_write D.length, Ev.end_op, Ev.cleanup_record] p = some D := by
    simp [applyWrite, hiw]
  have henv : readEnvOf (applyWrite fs0 p
      [Ev.begin_op, Ev.issue_open p OpenFlags.wronly_creat_trunc,
       Ev.issue_write D, Ev.issue_close, Ev.write_cb none,
       Ev.record_write D.length, Ev.end_op, Ev.cleanup_record]) p =
      readEnvOfContent D := by
    unfold readEnvOf
    rw [hfs1]
  rw [henv, fs_read_file_content p D hD]
  refine ⟨rfl, hiw, hfs1, rfl, rfl, by simp⟩

/-- Witness for C7: round-tripping the payload `[1, 2]` through path "f" on
an initially empty model filesystem delivers `[1, 2, 0]` with reported
length 2. -/
theorem C7_witness :
    readDelivery (fs_read_file false false "f" initState
        (readEnvOf (applyWrite (fun _ => none) "f"
          (fs_write_file false false false "f" [1, 2] 2 initState
            (happyWriteEnv 2)).2) "f")).2 =
      some (none, some [1, 2, 0], 2) :=
  (C7_write_read_roundtrip (fun _ => none) "f" [1, 2]
    (by decide)).2.2.2.2.1

end EcewoFs
